import Mathlib

/-!
Shallow embedding of the Reka Research MCP server (src/api/server.ts).

The server registers two MCP tools, `verify_claim` and `find_similar`.
Each handler resolves an API key (environment default, overridable by a
`Bearer ` Authorization header), builds a fixed prompt, performs one
upstream HTTP call, and wraps either the upstream text or a textual error
message into a single text content block.  Schema-invalid arguments are
rejected before the handler runs.

JavaScript-specific behaviour is embedded explicitly:
* `??` (nullish coalescing) between the two header lookups;
* truthiness of the raw header value (`""` is falsy, arrays are truthy);
* `Array.isArray(v) ? v[0] : v` with `typeof ... === 'string'` (an empty
  array yields `undefined`, which fails the string check);
* `!rekaApiKey` (undefined or empty string both count as missing);
* `data.choices[0]?.message?.content || "No response received"` — the
  optional chain starts after `data.choices[0]`, so a body without a
  `choices` field throws a TypeError, while `choices: []` short-circuits;
  `||` replaces any falsy content (absent or empty string);
* thrown errors carry only their message string; the handler's catch block
  renders `error.message` into the text block.
-/

namespace RekaMcp

/-- A header value as seen by the handler: a single string or an array of
strings (Node-style headers). -/
inductive HeaderValue where
  | str (s : String)
  | arr (l : List String)
deriving DecidableEq, Repr

/-- JavaScript truthiness of a header value: the empty string is falsy,
every array (even empty) is truthy. -/
def HeaderValue.truthy : HeaderValue → Bool
  | .str s => s != ""
  | .arr _ => true

/-- `context.requestInfo` : transport metadata carrying the headers. -/
structure RequestMeta where
  headers : Option (List (String × HeaderValue))
deriving DecidableEq, Repr

/-- The optional `context` argument given to a tool handler. -/
structure ToolContext where
  requestMeta : Option RequestMeta
deriving DecidableEq, Repr

/-- `context.requestInfo.headers['Authorization'] ?? context.requestInfo.headers['authorization']`
(`??` keeps the left value whenever the key is present, even if its value
is the empty string). -/
def lookupAuthHeader (hs : List (String × HeaderValue)) : Option HeaderValue :=
  match List.lookup "Authorization" hs with
  | some v => some v
  | none => List.lookup "authorization" hs

/-- The string tested with `startsWith('Bearer ')`: present only when the
chain `context?.requestInfo?.headers` is an object, the raw header value is
truthy, and (for arrays) a first element exists. -/
def effectiveAuthString (ctx : Option ToolContext) : Option String :=
  match ctx with
  | none => none
  | some c =>
    match c.requestMeta with
    | none => none
    | some ri =>
      match ri.headers with
      | none => none
      | some hs =>
        match lookupAuthHeader hs with
        | none => none
        | some raw =>
          if raw.truthy then
            match raw with
            | .str s => some s
            | .arr l => l.head?
          else none

/-- `s.startsWith(p)` of JavaScript, as a character-level prefix test. -/
def strStartsWith (s p : String) : Bool := List.isPrefixOf p.data s.data

/-- `s.slice(n)` of JavaScript (drop the first `n` characters). -/
def strDrop (s : String) (n : Nat) : String := String.mk (List.drop n s.data)

/-- Credential resolution of both handlers (lines 151–165 of server.ts):
start from `process.env.REKA_API_KEY`, override with the substring after
`Bearer ` (7 characters) when the effective Authorization value starts
with that prefix. -/
def resolveApiKey (envKey : Option String) (ctx : Option ToolContext) : Option String :=
  match effectiveAuthString ctx with
  | some s => if strStartsWith s "Bearer " then some (strDrop s 7) else envKey
  | none => envKey

/-- JavaScript falsiness of the resolved key (`!rekaApiKey`): missing or
empty. -/
def falsyKey : Option String → Bool
  | none => true
  | some s => s == ""

/-- One message of the upstream chat request. -/
structure ChatMessage where
  role : String
  content : String
deriving DecidableEq, Repr

/-- The JSON payload posted to the completions endpoint. -/
structure RequestPayload where
  model : String
  messages : List ChatMessage
deriving DecidableEq, Repr

/-- `message.content` of an upstream choice (possibly absent). -/
structure RekaMessage where
  content : Option String
deriving DecidableEq, Repr

/-- One element of the upstream `choices` array. -/
structure RekaChoice where
  message : Option RekaMessage
deriving DecidableEq, Repr

/-- The parsed JSON body of an upstream success response; `choices := none`
models a body without a `choices` field. -/
structure RekaBody where
  choices : Option (List RekaChoice)
deriving DecidableEq, Repr

/-- The single upstream request issued by a handler: endpoint URL, the
Authorization header built from the resolved key, and the JSON payload. -/
structure UpstreamRequest where
  url : String
  authorization : String
  payload : RequestPayload
deriving DecidableEq, Repr

/-- Outcome of the `fetch` call.  `http status statusText bodyText bodyJson`
is a delivered HTTP response (`response.ok` is derived from the status);
`bodyJson` is the result of `response.json()` (`Except.error` for a body
that is not valid JSON).  `networkError` models a rejected fetch. -/
inductive FetchResult where
  | http (status : Nat) (statusText : String) (bodyText : String)
      (bodyJson : Except String RekaBody)
  | networkError (msg : String)

/-- The environment's upstream behaviour: what the single `fetch` returns
for a given request. -/
def Upstream : Type := UpstreamRequest → FetchResult

/-- The fixed completions endpoint. -/
def chatCompletionsUrl : String := "https://api.reka.ai/v1/chat/completions"

/-- The fixed framing text of the `verify_claim` prompt (line 30 of
server.ts), to which the claim text is appended. -/
def verifyFraming : String :=
  "Analyze the given claim and provide a verification assessment. Return your response as a JSON object with 'verdict' (true/false/uncertain), 'confidence' (0-1), and 'reasoning' fields. Please verify this claim: "

/-- The full `verify_claim` prompt. -/
def verifyPrompt (claim : String) : String := verifyFraming ++ claim

/-- The request payload built by `verifyClaimWithReka`. -/
def verifyRequestPayload (claim : String) : RequestPayload :=
  { model := "reka-flash-research"
    messages := [{ role := "user", content := verifyPrompt claim }] }

/-- The fixed pieces of the `find_similar` prompt (lines 84–89 of
server.ts). -/
def findFramingA : String :=
  "Find items similar to the given target based on the specified attribute. Provide a detailed analysis and list of similar items with explanations.\n\nTarget: "

/-- Text between the target and the first attribute occurrence. -/
def findFramingB : String := "\nAttribute to compare: "

/-- Text between the two attribute occurrences. -/
def findFramingC : String :=
  "\n\nAnalyze the target and find similar items based on the \""

/-- Trailing text of the `find_similar` prompt. -/
def findFramingD : String :=
  "\" attribute. Provide concrete examples and explain why they are similar."

/-- The full `find_similar` prompt: template substitution of `target` and
`attribute` (the attribute appears twice). -/
def findPrompt (target attr : String) : String :=
  findFramingA ++ target ++ (findFramingB ++ attr ++ (findFramingC ++ attr ++ findFramingD))

/-- The request payload built by `findSimilarWithReka`. -/
def findRequestPayload (target attr : String) : RequestPayload :=
  { model := "reka-flash-research"
    messages := [{ role := "user", content := findPrompt target attr }] }

/-- Message of the TypeError thrown by `data.choices[0]` when `data.choices`
is `undefined` (Node wording). -/
def choicesTypeErrorMsg : String :=
  "Cannot read properties of undefined (reading '0')"

/-- `data.choices[0]?.message?.content || "No response received"`.  A body
without a `choices` field throws (the indexing happens before the optional
chain); otherwise any falsy content — missing first choice, missing
message, missing content, or empty-string content — yields the placeholder. -/
def extractResult (data : RekaBody) : Except String String :=
  match data.choices with
  | none => .error choicesTypeErrorMsg
  | some cs =>
    .ok (match cs.head? with
      | none => "No response received"
      | some c =>
        match c.message with
        | none => "No response received"
        | some m =>
          match m.content with
          | none => "No response received"
          | some s => if s == "" then "No response received" else s)

/-- `verifyClaimWithReka` (lines 22–74 of server.ts): one fetch to the fixed
endpoint with bearer authentication; non-success status throws
`Reka API error: <status> <statusText>` (the body is read and logged but
not included in the thrown error); success parses the JSON body and
extracts the first choice's content. -/
def verifyClaimWithReka (upstream : Upstream) (claim rekaApiKey : String) :
    Except String String :=
  match upstream { url := chatCompletionsUrl
                   authorization := "Bearer " ++ rekaApiKey
                   payload := verifyRequestPayload claim } with
  | .networkError msg => .error msg
  | .http status statusText _bodyText bodyJson =>
    if 200 ≤ status ∧ status < 300 then
      match bodyJson with
      | .error msg => .error msg
      | .ok data => extractResult data
    else
      .error ("Reka API error: " ++ toString status ++ " " ++ statusText)

/-- `findSimilarWithReka` (lines 76–134 of server.ts): identical transport
behaviour with the similarity prompt. -/
def findSimilarWithReka (upstream : Upstream) (target attr rekaApiKey : String) :
    Except String String :=
  match upstream { url := chatCompletionsUrl
                   authorization := "Bearer " ++ rekaApiKey
                   payload := findRequestPayload target attr } with
  | .networkError msg => .error msg
  | .http status statusText _bodyText bodyJson =>
    if 200 ≤ status ∧ status < 300 then
      match bodyJson with
      | .error msg => .error msg
      | .ok data => extractResult data
    else
      .error ("Reka API error: " ++ toString status ++ " " ++ statusText)

/-- One content block of a tool response. -/
structure ContentBlock where
  type : String
  text : String
deriving DecidableEq, Repr

/-- The error text thrown when no API key is resolvable (lines 167–170). -/
def missingKeyMsg : String :=
  "REKA_API_KEY must be provided via environment variable 'REKA_API_KEY' or Authorization header"

/-- The body of the `verify_claim` try block, as an `Except`: a thrown
error becomes `.error`, the upstream text becomes `.ok`. -/
def verifyClaimBody (envKey : Option String) (upstream : Upstream)
    (claim : String) (ctx : Option ToolContext) : Except String String :=
  match resolveApiKey envKey ctx with
  | none => .error missingKeyMsg
  | some k =>
    if k == "" then .error missingKeyMsg
    else verifyClaimWithReka upstream claim k

/-- The `verify_claim` handler's result rendering: the try block's value on
success, `Error verifying claim: <message>` from the catch block on any
thrown error; always exactly one text content block. -/
def renderVerify : Except String String → List ContentBlock
  | .ok verification => [{ type := "text", text := verification }]
  | .error msg => [{ type := "text", text := "Error verifying claim: " ++ msg }]

/-- The registered `verify_claim` handler (lines 144–199). -/
def verifyClaimHandler (envKey : Option String) (upstream : Upstream)
    (claim : String) (ctx : Option ToolContext) : List ContentBlock :=
  renderVerify (verifyClaimBody envKey upstream claim ctx)

/-- The body of the `find_similar` try block, as an `Except`. -/
def findSimilarBody (envKey : Option String) (upstream : Upstream)
    (target attr : String) (ctx : Option ToolContext) : Except String String :=
  match resolveApiKey envKey ctx with
  | none => .error missingKeyMsg
  | some k =>
    if k == "" then .error missingKeyMsg
    else findSimilarWithReka upstream target attr k

/-- The `find_similar` handler's result rendering (catch prefix
`Error finding similar items: `). -/
def renderFind : Except String String → List ContentBlock
  | .ok similarItems => [{ type := "text", text := similarItems }]
  | .error msg => [{ type := "text", text := "Error finding similar items: " ++ msg }]

/-- The registered `find_similar` handler (lines 208–265). -/
def findSimilarHandler (envKey : Option String) (upstream : Upstream)
    (target attr : String) (ctx : Option ToolContext) : List ContentBlock :=
  renderFind (findSimilarBody envKey upstream target attr ctx)

/-- A raw JSON argument value, as validated by the zod schema. -/
inductive ArgVal where
  | str (s : String)
  | num (n : Int)
  | boolean (b : Bool)
  | null
deriving DecidableEq, Repr

/-- Schema validation of `verify_claim` (`{ claim: z.string() }`): the
`claim` field must be present and be a string; nothing else is checked. -/
def validateVerifyArgs (args : List (String × ArgVal)) : Option String :=
  match List.lookup "claim" args with
  | some (.str s) => some s
  | _ => none

/-- Schema validation of `find_similar` (`target`, `attribute`:
`z.string()`). -/
def validateFindArgs (args : List (String × ArgVal)) : Option (String × String) :=
  match List.lookup "target" args, List.lookup "attribute" args with
  | some (.str t), some (.str a) => some (t, a)
  | _, _ => none

/-- Result of one tool invocation at the protocol level: a successful
response envelope, or a protocol-level invalid-arguments error raised by
schema validation. -/
inductive ToolResult where
  | response (content : List ContentBlock)
  | invalidArgs
deriving DecidableEq, Repr

/-- Full dispatch of a `verify_claim` invocation: schema validation, then
the handler. -/
def verifyClaimTool (envKey : Option String) (upstream : Upstream)
    (args : List (String × ArgVal)) (ctx : Option ToolContext) : ToolResult :=
  match validateVerifyArgs args with
  | none => .invalidArgs
  | some claim => .response (verifyClaimHandler envKey upstream claim ctx)

/-- Full dispatch of a `find_similar` invocation. -/
def findSimilarTool (envKey : Option String) (upstream : Upstream)
    (args : List (String × ArgVal)) (ctx : Option ToolContext) : ToolResult :=
  match validateFindArgs args with
  | none => .invalidArgs
  | some (t, a) => .response (findSimilarHandler envKey upstream t a ctx)

/-- `h` contains `n` as a literal substring. -/
def hasSubstr (h n : String) : Prop := ∃ a b, h = a ++ (n ++ b)

/-- Invocation context whose transport headers are exactly `hs`. -/
def ctxOf (hs : List (String × HeaderValue)) : Option ToolContext :=
  some { requestMeta := some { headers := some hs } }

/-- An upstream that always answers 200 with a single choice whose content
is the text `UPSTREAM`. -/
def upstreamConst : Upstream := fun _ =>
  .http 200 "OK" ""
    (.ok { choices := some [{ message := some { content := some "UPSTREAM" } }] })

/-- An upstream answering 401 with raw body `RAW_BODY_ONE`. -/
def upstream401A : Upstream := fun _ =>
  .http 401 "Unauthorized" "RAW_BODY_ONE" (.ok { choices := some [] })

/-- An upstream answering 401 with raw body `RAW_BODY_TWO`. -/
def upstream401B : Upstream := fun _ =>
  .http 401 "Unauthorized" "RAW_BODY_TWO" (.ok { choices := some [] })

/-- An upstream answering 200 with a JSON body that has no `choices`
field. -/
def upstreamNoChoicesField : Upstream := fun _ =>
  .http 200 "OK" "" (.ok { choices := none })

/-- Every rendering of a `verify_claim` outcome is a single text block. -/
theorem renderVerify_shape (e : Except String String) :
    ∃ t, renderVerify e = [{ type := "text", text := t }] := by
  cases e with
  | ok v => exact ⟨v, rfl⟩
  | error m => exact ⟨"Error verifying claim: " ++ m, rfl⟩

/-- Every rendering of a `find_similar` outcome is a single text block. -/
theorem renderFind_shape (e : Except String String) :
    ∃ t, renderFind e = [{ type := "text", text := t }] := by
  cases e with
  | ok v => exact ⟨v, rfl⟩
  | error m => exact ⟨"Error finding similar items: " ++ m, rfl⟩

/-- Boolean equality with the empty string is false for a nonempty
string. -/
theorem key_beq_empty_false {k : String} (hk : k ≠ "") : (k == "") = false := by
  simp [hk]

/-- `effectiveAuthString` over a context built from a header list reduces
to the header analysis. -/
theorem effectiveAuthString_ctxOf (hs : List (String × HeaderValue)) :
    effectiveAuthString (ctxOf hs) =
      (match lookupAuthHeader hs with
       | none => none
       | some raw =>
         if raw.truthy then
           match raw with
           | .str s => some s
           | .arr l => l.head?
         else none) := rfl

/-- C1: for every invocation of `verify_claim` or `find_similar` whose
arguments pass schema validation, the dispatcher returns a protocol-level
successful response with exactly one content block of type `text`,
whatever the environment key, headers and upstream behaviour (upstream
success, missing credential, HTTP or transport failure alike); only
schema-invalid arguments yield the protocol-level invalid-arguments
error. -/
theorem c1_single_text_block (envKey : Option String) (upstream : Upstream)
    (ctx : Option ToolContext) (argsV argsF : List (String × ArgVal)) :
    (∀ claim, validateVerifyArgs argsV = some claim →
      ∃ t, verifyClaimTool envKey upstream argsV ctx =
        .response [{ type := "text", text := t }])
  ∧ (validateVerifyArgs argsV = none →
      verifyClaimTool envKey upstream argsV ctx = .invalidArgs)
  ∧ (∀ t a, validateFindArgs argsF = some (t, a) →
      ∃ s, findSimilarTool envKey upstream argsF ctx =
        .response [{ type := "text", text := s }])
  ∧ (validateFindArgs argsF = none →
      findSimilarTool envKey upstream argsF ctx = .invalidArgs) := by
  refine ⟨?_, ?_, ?_, ?_⟩
  · intro claim h
    obtain ⟨t, ht⟩ := renderVerify_shape (verifyClaimBody envKey upstream claim ctx)
    exact ⟨t, by simp [verifyClaimTool, h, verifyClaimHandler, ht]⟩
  · intro h
    simp [verifyClaimTool, h]
  · intro t a h
    obtain ⟨s, hs⟩ := renderFind_shape (findSimilarBody envKey upstream t a ctx)
    exact ⟨s, by simp [findSimilarTool, h, findSimilarHandler, hs]⟩
  · intro h
    simp [findSimilarTool, h]

/-- Witness for C1 at concrete inputs: a valid `verify_claim` invocation
produces a single text block, and an invocation without the `claim` field
is a protocol-level error. -/
theorem c1_witness :
    (∃ t, verifyClaimTool (some "K") upstreamConst [("claim", ArgVal.str "c")] none =
      .response [{ type := "text", text := t }])
  ∧ verifyClaimTool (some "K") upstreamConst [] none = .invalidArgs := by
  refine ⟨?_, ?_⟩
  · exact (c1_single_text_block (some "K") upstreamConst none
      [("claim", ArgVal.str "c")] []).1 "c" rfl
  · exact (c1_single_text_block (some "K") upstreamConst none [] []).2.1 rfl

/-- C2: credential precedence.  The configured key is the default; an
Authorization header (key `Authorization` or `authorization`, first
element when the value is an array) whose effective string value starts
with `Bearer ` overrides it with the substring after the prefix, while a
value not starting with `Bearer ` leaves the configured key in effect.
In particular, with configured key `K1` and header `Bearer K2` the
upstream call uses `K2`, and with header `Token K2` it uses `K1`. -/
theorem c2_credential_precedence :
    (∀ (envKey : Option String) (hs : List (String × HeaderValue)) (s : String),
      lookupAuthHeader hs = some (.str s) → strStartsWith s "Bearer " = true →
        resolveApiKey envKey (ctxOf hs) = some (strDrop s 7))
  ∧ (∀ (envKey : Option String) (hs : List (String × HeaderValue)) (s : String),
      lookupAuthHeader hs = some (.str s) → strStartsWith s "Bearer " = false →
        resolveApiKey envKey (ctxOf hs) = envKey)
  ∧ (∀ (envKey : Option String) (hs : List (String × HeaderValue)) (l : List String),
      lookupAuthHeader hs = some (.arr l) →
        resolveApiKey envKey (ctxOf hs) =
          (match l.head? with
           | some s => if strStartsWith s "Bearer " then some (strDrop s 7) else envKey
           | none => envKey))
  ∧ (∀ (claim : String) (upstream : Upstream),
      verifyClaimHandler (some "K1") upstream claim
          (ctxOf [("Authorization", HeaderValue.str "Bearer K2")]) =
        renderVerify (verifyClaimWithReka upstream claim "K2"))
  ∧ (∀ (claim : String) (upstream : Upstream),
      verifyClaimHandler (some "K1") upstream claim
          (ctxOf [("Authorization", HeaderValue.str "Token K2")]) =
        renderVerify (verifyClaimWithReka upstream claim "K1")) := by
  refine ⟨?_, ?_, ?_, ?_, ?_⟩
  · intro envKey hs s hlook hstart
    have hne : s ≠ "" := by
      intro he
      subst he
      exact absurd hstart (by decide)
    rw [resolveApiKey, effectiveAuthString_ctxOf, hlook]
    simp [HeaderValue.truthy, hne, hstart]
  · intro envKey hs s hlook hstart
    rw [resolveApiKey, effectiveAuthString_ctxOf, hlook]
    by_cases hne : s = ""
    · subst hne
      simp [HeaderValue.truthy]
    · simp [HeaderValue.truthy, hne, hstart]
  · intro envKey hs l hlook
    rw [resolveApiKey, effectiveAuthString_ctxOf, hlook]
    cases l with
    | nil => simp [HeaderValue.truthy]
    | cons s rest =>
      simp only [HeaderValue.truthy, if_true, List.head?]
  · intro claim upstream
    have hr : resolveApiKey (some "K1")
        (ctxOf [("Authorization", HeaderValue.str "Bearer K2")]) = some "K2" := by decide
    rw [verifyClaimHandler, verifyClaimBody, hr]
    simp
  · intro claim upstream
    have hr : resolveApiKey (some "K1")
        (ctxOf [("Authorization", HeaderValue.str "Token K2")]) = some "K1" := by decide
    rw [verifyClaimHandler, verifyClaimBody, hr]
    simp

/-- Witness for C2 at concrete inputs: a `Bearer K2` header overrides the
configured `K1`, a `Token K2` header does not. -/
theorem c2_witness :
    resolveApiKey (some "K1")
        (ctxOf [("Authorization", HeaderValue.str "Bearer K2")]) =
      some (strDrop "Bearer K2" 7)
  ∧ resolveApiKey (some "K1")
        (ctxOf [("Authorization", HeaderValue.str "Token K2")]) = some "K1" := by
  refine ⟨?_, ?_⟩
  · exact c2_credential_precedence.1 (some "K1")
      [("Authorization", HeaderValue.str "Bearer K2")] "Bearer K2" rfl (by decide)
  · exact c2_credential_precedence.2.1 (some "K1")
      [("Authorization", HeaderValue.str "Token K2")] "Token K2" rfl (by decide)

/-- C3: whenever credential resolution yields no usable key (missing or
empty after override), both tools return a fixed single text block whose
text embeds `REKA_API_KEY must be provided`, for every upstream behaviour
(hence no upstream call is made). -/
theorem c3_missing_key_message (envKey : Option String) (ctx : Option ToolContext)
    (upstream : Upstream) (claim t a : String)
    (h : falsyKey (resolveApiKey envKey ctx) = true) :
    verifyClaimHandler envKey upstream claim ctx =
      [{ type := "text", text := "Error verifying claim: " ++ missingKeyMsg }]
  ∧ findSimilarHandler envKey upstream t a ctx =
      [{ type := "text", text := "Error finding similar items: " ++ missingKeyMsg }]
  ∧ hasSubstr ("Error verifying claim: " ++ missingKeyMsg)
      "REKA_API_KEY must be provided"
  ∧ hasSubstr ("Error finding similar items: " ++ missingKeyMsg)
      "REKA_API_KEY must be provided" := by
  refine ⟨?_, ?_, ?_, ?_⟩
  · cases hk : resolveApiKey envKey ctx with
    | none => simp [verifyClaimHandler, verifyClaimBody, hk, renderVerify]
    | some s =>
      rw [hk] at h
      simp [falsyKey] at h
      simp [verifyClaimHandler, verifyClaimBody, hk, h, renderVerify]
  · cases hk : resolveApiKey envKey ctx with
    | none => simp [findSimilarHandler, findSimilarBody, hk, renderFind]
    | some s =>
      rw [hk] at h
      simp [falsyKey] at h
      simp [findSimilarHandler, findSimilarBody, hk, h, renderFind]
  · exact ⟨"Error verifying claim: ",
      " via environment variable 'REKA_API_KEY' or Authorization header", by decide⟩
  · exact ⟨"Error finding similar items: ",
      " via environment variable 'REKA_API_KEY' or Authorization header", by decide⟩

/-- Witness for C3: with no configured key and no headers, `verify_claim`
returns the missing-credential text. -/
theorem c3_witness :
    verifyClaimHandler none upstreamConst "c" none =
      [{ type := "text", text := "Error verifying claim: " ++ missingKeyMsg }] :=
  (c3_missing_key_message none none upstreamConst "c" "t" "a" (by decide)).1

/-- C4 counterexample: with the non-empty configured key `K1` and the
header value `Bearer ` (well-formed prefix, empty remainder), the handler
returns the missing-credential error text instead of attempting the
upstream call — the empty override displaces the configured key. -/
theorem c4_counterexample :
    verifyClaimHandler (some "K1") upstreamConst "c"
        (ctxOf [("Authorization", HeaderValue.str "Bearer ")]) =
      [{ type := "text", text := "Error verifying claim: " ++ missingKeyMsg }]
  ∧ verifyClaimHandler (some "K1") upstreamConst "c"
        (ctxOf [("Authorization", HeaderValue.str "Bearer ")]) ≠
      [{ type := "text", text := "UPSTREAM" }] := by
  constructor
  · rfl
  · decide

/-- C4 (amended): when the configured key is non-empty, the dispatcher
proceeds to the upstream call with some non-empty key for every
Authorization header — except when the header value starts with `Bearer `
and the remainder is empty, in which case the empty override triggers the
missing-credential error.  Stated with the exception as a hypothesis. -/
theorem c4_amended (e : String) (he : e ≠ "") (ctx : Option ToolContext)
    (hctx : ∀ s, effectiveAuthString ctx = some s →
      strStartsWith s "Bearer " = true → strDrop s 7 ≠ "")
    (upstream : Upstream) (claim t a : String) :
    ∃ k, k ≠ "" ∧
      verifyClaimHandler (some e) upstream claim ctx =
        renderVerify (verifyClaimWithReka upstream claim k) ∧
      findSimilarHandler (some e) upstream t a ctx =
        renderFind (findSimilarWithReka upstream t a k) := by
  cases heff : effectiveAuthString ctx with
  | none =>
    refine ⟨e, he, ?_, ?_⟩
    · simp [verifyClaimHandler, verifyClaimBody, resolveApiKey, heff, he]
    · simp [findSimilarHandler, findSimilarBody, resolveApiKey, heff, he]
  | some s =>
    cases hstart : strStartsWith s "Bearer " with
    | true =>
      have hk := hctx s heff hstart
      refine ⟨strDrop s 7, hk, ?_, ?_⟩
      · simp [verifyClaimHandler, verifyClaimBody, resolveApiKey, heff, hstart, hk]
      · simp [findSimilarHandler, findSimilarBody, resolveApiKey, heff, hstart, hk]
    | false =>
      refine ⟨e, he, ?_, ?_⟩
      · simp [verifyClaimHandler, verifyClaimBody, resolveApiKey, heff, hstart, he]
      · simp [findSimilarHandler, findSimilarBody, resolveApiKey, heff, hstart, he]

/-- Witness for C4 (amended): with configured key `K` and no headers, both
handlers run against the upstream with key `K`. -/
theorem c4_amended_witness :
    ∃ k, k ≠ "" ∧
      verifyClaimHandler (some "K") upstreamConst "c" none =
        renderVerify (verifyClaimWithReka upstreamConst "c" k) ∧
      findSimilarHandler (some "K") upstreamConst "t" "a" none =
        renderFind (findSimilarWithReka upstreamConst "t" "a" k) :=
  c4_amended "K" (by decide) none
    (by intro s hs; simp [effectiveAuthString] at hs) upstreamConst "c" "t" "a"

/-- C5 counterexample: two upstream 401 responses that differ only in the
raw response body produce identical raised failures, so the raised failure
does not carry the raw response body (contrary to the claim); the code
reads and logs the body but throws only `Reka API error: <status>
<statusText>`. -/
theorem c5_counterexample :
    verifyClaimWithReka upstream401A "c" "K" =
      .error "Reka API error: 401 Unauthorized"
  ∧ verifyClaimWithReka upstream401B "c" "K" =
      .error "Reka API error: 401 Unauthorized" := by
  constructor <;> rfl

/-- C5 (amended): on a non-success status the Upstream Client raises,
without retrying (the model performs exactly one fetch), a failure carrying
the status code and status text (but not the response body), and a
dispatcher with a usable key surfaces it as a successful response whose
single text block contains the status code. -/
theorem c5_amended (status : Nat) (statusText bodyText : String)
    (bodyJson : Except String RekaBody) (claim key : String)
    (envKey : Option String) (ctx : Option ToolContext)
    (hstatus : ¬(200 ≤ status ∧ status < 300))
    (hres : resolveApiKey envKey ctx = some key) (hkey : key ≠ "") :
    verifyClaimWithReka (fun _ => .http status statusText bodyText bodyJson) claim key =
      .error ("Reka API error: " ++ toString status ++ " " ++ statusText)
  ∧ verifyClaimHandler envKey (fun _ => .http status statusText bodyText bodyJson) claim ctx =
      [{ type := "text",
         text := "Error verifying claim: " ++
           ("Reka API error: " ++ toString status ++ " " ++ statusText) }]
  ∧ hasSubstr ("Error verifying claim: " ++
      ("Reka API error: " ++ toString status ++ " " ++ statusText)) (toString status) := by
  have hup : verifyClaimWithReka (fun _ => .http status statusText bodyText bodyJson) claim key =
      .error ("Reka API error: " ++ toString status ++ " " ++ statusText) := by
    simp only [verifyClaimWithReka]
    rw [if_neg hstatus]
  refine ⟨hup, ?_, ?_⟩
  · simp [verifyClaimHandler, verifyClaimBody, hres, hkey, hup, renderVerify]
  · exact ⟨"Error verifying claim: " ++ "Reka API error: ", " " ++ statusText,
      by simp [← String.append_assoc]⟩

/-- Witness for C5 (amended) at a concrete 401 response. -/
theorem c5_amended_witness :
    verifyClaimWithReka (fun _ => .http 401 "Unauthorized" "RAW" (.ok { choices := some [] })) "c" "K" =
      .error ("Reka API error: " ++ toString 401 ++ " " ++ "Unauthorized")
  ∧ verifyClaimHandler (some "K") (fun _ => .http 401 "Unauthorized" "RAW" (.ok { choices := some [] })) "c" none =
      [{ type := "text",
         text := "Error verifying claim: " ++
           ("Reka API error: " ++ toString 401 ++ " " ++ "Unauthorized") }]
  ∧ hasSubstr ("Error verifying claim: " ++
      ("Reka API error: " ++ toString 401 ++ " " ++ "Unauthorized")) (toString 401) :=
  c5_amended 401 "Unauthorized" "RAW" (.ok { choices := some [] }) "c" "K"
    (some "K") none (by decide) rfl (by decide)

/-- C6 counterexample: a success body without a `choices` field does not
produce the placeholder text — indexing `data.choices[0]` throws a
TypeError before the optional chain applies, which the handler catches. -/
theorem c6_counterexample :
    verifyClaimWithReka upstreamNoChoicesField "c" "K" = .error choicesTypeErrorMsg
  ∧ verifyClaimWithReka upstreamNoChoicesField "c" "K" ≠ .ok "No response received" := by
  constructor
  · rfl
  · have h1 : verifyClaimWithReka upstreamNoChoicesField "c" "K" =
        .error choicesTypeErrorMsg := rfl
    rw [h1]
    simp

/-- C6 (amended): on upstream success the client extracts the first
choice's message content; when the `choices` array is present, extraction
never fails; an empty `choices` array, an absent first-choice message, or
an absent content all yield the literal `No response received`, and for an
empty `choices` array the tool's text content is exactly that placeholder.
A body lacking the `choices` array entirely instead raises a caught
TypeError. -/
theorem c6_amended :
    (∀ cs : List RekaChoice, ∃ s, extractResult { choices := some cs } = .ok s)
  ∧ extractResult { choices := some [] } = .ok "No response received"
  ∧ (∀ rest : List RekaChoice,
      extractResult { choices := some ({ message := none } :: rest) } =
        .ok "No response received")
  ∧ (∀ rest : List RekaChoice,
      extractResult { choices := some ({ message := some { content := none } } :: rest) } =
        .ok "No response received")
  ∧ (∀ statusText bodyText claim : String,
      verifyClaimHandler (some "K")
          (fun _ => .http 200 statusText bodyText (.ok { choices := some [] })) claim none =
        [{ type := "text", text := "No response received" }]) := by
  refine ⟨?_, rfl, fun rest => rfl, fun rest => rfl, ?_⟩
  · intro cs
    cases cs with
    | nil => exact ⟨"No response received", rfl⟩
    | cons c rest =>
      cases hm : c.message with
      | none => exact ⟨"No response received", by simp [extractResult, hm]⟩
      | some m =>
        cases hc : m.content with
        | none => exact ⟨"No response received", by simp [extractResult, hm, hc]⟩
        | some s =>
          by_cases hs : s = ""
          · exact ⟨"No response received", by simp [extractResult, hm, hc, hs]⟩
          · exact ⟨s, by simp [extractResult, hm, hc, hs]⟩
  · intro statusText bodyText claim
    simp [verifyClaimHandler, verifyClaimBody, verifyClaimWithReka, extractResult,
      renderVerify, resolveApiKey, effectiveAuthString]

/-- C7: whatever string the Upstream Client returns on success is passed
through verbatim as the tool's single text block — no parsing or
transformation — for both tools, for every string including malformed or
non-JSON text. -/
theorem c7_verbatim_passthrough (envKey : Option String) (ctx : Option ToolContext)
    (upstream : Upstream) (claim t a s key : String)
    (hres : resolveApiKey envKey ctx = some key) (hkey : key ≠ "") :
    (verifyClaimWithReka upstream claim key = .ok s →
      verifyClaimHandler envKey upstream claim ctx = [{ type := "text", text := s }])
  ∧ (findSimilarWithReka upstream t a key = .ok s →
      findSimilarHandler envKey upstream t a ctx = [{ type := "text", text := s }]) := by
  constructor
  · intro hok
    simp [verifyClaimHandler, verifyClaimBody, hres, hkey, hok, renderVerify]
  · intro hok
    simp [findSimilarHandler, findSimilarBody, hres, hkey, hok, renderFind]

/-- Witness for C7: a concrete upstream success text appears verbatim in
the tool response. -/
theorem c7_witness :
    verifyClaimHandler (some "K") upstreamConst "c" none =
      [{ type := "text", text := "UPSTREAM" }] :=
  (c7_verbatim_passthrough (some "K") none upstreamConst "c" "t" "a" "UPSTREAM" "K"
    rfl (by decide)).1 rfl

set_option maxRecDepth 8192 in
/-- C8: for every claim string, the `verify_claim` payload fixes the model
to the research variant, consists of a single user-role message whose
content is the fixed framing followed by the claim text, the claim is a
literal substring of the prompt, and the framing instructs a JSON object
with the `verdict` (true/false/uncertain), `confidence` (0-1) and
`reasoning` fields. -/
theorem c8_verify_prompt (claim : String) :
    (verifyRequestPayload claim).model = "reka-flash-research"
  ∧ (verifyRequestPayload claim).messages =
      [{ role := "user", content := verifyFraming ++ claim }]
  ∧ hasSubstr (verifyPrompt claim) claim
  ∧ hasSubstr verifyFraming "JSON object"
  ∧ hasSubstr verifyFraming "'verdict' (true/false/uncertain)"
  ∧ hasSubstr verifyFraming "'confidence' (0-1)"
  ∧ hasSubstr verifyFraming "'reasoning'" := by
  refine ⟨rfl, rfl, ⟨verifyFraming, "", by simp [verifyPrompt]⟩, ?_, ?_, ?_, ?_⟩
  · exact ⟨"Analyze the given claim and provide a verification assessment. Return your response as a ",
      " with 'verdict' (true/false/uncertain), 'confidence' (0-1), and 'reasoning' fields. Please verify this claim: ",
      by decide⟩
  · exact ⟨"Analyze the given claim and provide a verification assessment. Return your response as a JSON object with ",
      ", 'confidence' (0-1), and 'reasoning' fields. Please verify this claim: ",
      by decide⟩
  · exact ⟨"Analyze the given claim and provide a verification assessment. Return your response as a JSON object with 'verdict' (true/false/uncertain), ",
      ", and 'reasoning' fields. Please verify this claim: ",
      by decide⟩
  · exact ⟨"Analyze the given claim and provide a verification assessment. Return your response as a JSON object with 'verdict' (true/false/uncertain), 'confidence' (0-1), and ",
      " fields. Please verify this claim: ",
      by decide⟩

/-- C9: for every target and attribute, the `find_similar` payload is a
single user-role message on the fixed research model whose prompt contains
both the target and the attribute as literal substrings (concretely so for
`ChatGPT`/`functionality`), and the dispatcher renders whatever the
Upstream Client returns as a single text block, verbatim on success. -/
theorem c9_find_prompt :
    (∀ target attr : String,
       (findRequestPayload target attr).model = "reka-flash-research"
     ∧ (findRequestPayload target attr).messages =
         [{ role := "user", content := findPrompt target attr }]
     ∧ hasSubstr (findPrompt target attr) target
     ∧ hasSubstr (findPrompt target attr) attr)
  ∧ hasSubstr (findPrompt "ChatGPT" "functionality") "ChatGPT"
  ∧ hasSubstr (findPrompt "ChatGPT" "functionality") "functionality"
  ∧ (∀ s : String, renderFind (.ok s) = [{ type := "text", text := s }])
  ∧ (∀ e : Except String String, ∃ s, renderFind e = [{ type := "text", text := s }]) := by
  have hgen : ∀ target attr : String,
      (findRequestPayload target attr).model = "reka-flash-research"
    ∧ (findRequestPayload target attr).messages =
        [{ role := "user", content := findPrompt target attr }]
    ∧ hasSubstr (findPrompt target attr) target
    ∧ hasSubstr (findPrompt target attr) attr := by
    intro target attr
    refine ⟨rfl, rfl, ?_, ?_⟩
    · exact ⟨findFramingA, findFramingB ++ attr ++ (findFramingC ++ attr ++ findFramingD),
        by simp [findPrompt, String.append_assoc]⟩
    · exact ⟨findFramingA ++ target ++ findFramingB, findFramingC ++ attr ++ findFramingD,
        by simp [findPrompt, String.append_assoc]⟩
  exact ⟨hgen, (hgen "ChatGPT" "functionality").2.2.1,
    (hgen "ChatGPT" "functionality").2.2.2, fun s => rfl, renderFind_shape⟩

/-- C10: schema validation only requires string-typed arguments — the
empty string passes for `claim`, `target` and `attribute`, and with a
usable configured key the dispatcher proceeds all the way to the upstream
call. -/
theorem c10_empty_strings_pass_schema (upstream : Upstream) (k : String) (hk : k ≠ "") :
    validateVerifyArgs [("claim", ArgVal.str "")] = some ""
  ∧ verifyClaimTool (some k) upstream [("claim", ArgVal.str "")] none =
      .response (renderVerify (verifyClaimWithReka upstream "" k))
  ∧ validateFindArgs [("target", ArgVal.str ""), ("attribute", ArgVal.str "")] =
      some ("", "")
  ∧ findSimilarTool (some k) upstream
        [("target", ArgVal.str ""), ("attribute", ArgVal.str "")] none =
      .response (renderFind (findSimilarWithReka upstream "" "" k))
  ∧ (∀ s, validateVerifyArgs [("claim", ArgVal.str s)] = some s) := by
  refine ⟨rfl, ?_, rfl, ?_, fun s => rfl⟩
  · have hv : validateVerifyArgs [("claim", ArgVal.str "")] = some "" := rfl
    simp [verifyClaimTool, hv, verifyClaimHandler, verifyClaimBody,
      resolveApiKey, effectiveAuthString, hk]
  · have hv : validateFindArgs [("target", ArgVal.str ""), ("attribute", ArgVal.str "")] =
        some ("", "") := rfl
    simp [findSimilarTool, hv, findSimilarHandler, findSimilarBody,
      resolveApiKey, effectiveAuthString, hk]

/-- Witness for C10 at the concrete key `K`. -/
theorem c10_witness :
    verifyClaimTool (some "K") upstreamConst [("claim", ArgVal.str "")] none =
      .response (renderVerify (verifyClaimWithReka upstreamConst "" "K")) :=
  (c10_empty_strings_pass_schema upstreamConst "K" (by decide)).2.1

end RekaMcp
